import Mathlib

/-!
Verification development for the tenant connector lifecycle supervisor
(`app/connectors_main.py`, the SharePoint Online event service in
`app/connectors/sources/microsoft/sharepoint_online/event_service.py`, and
the record entity model in `app/models/entities.py`).

The Python functions are shallowly embedded: collaborator calls (Arango
persistence, configuration service, account-service bootstrap functions,
messaging consumers/producer) are environment parameters that either return
a value or raise (`Except Unit`), and observable side effects (spawned
tasks, container overrides, log lines) are collected into explicit effect
lists / state records, in the order the Python code performs them.
-/

namespace Pipeshub

/-- Truthiness of an optional Python string: `None` and the empty string are
falsy, every other string is truthy (used for `payload.get("orgId")`,
`credentials_config.get("tenantId")` etc.). -/
def pyTruthyStr : Option String → Bool
  | none => false
  | some s => !(s == "")

/-- Lower-casing used in the app-name comparisons `app["name"].lower() ==
Connectors.X.value.lower()`, applied characterwise. -/
def strLower (s : String) : String := ⟨s.data.map Char.toLower⟩

/-- Modelled from the spec: the string values of the `AccountType` enum of
`app.config.constants.arangodb`, a constants module that is not under
`src/`. The spec's data model (section 3) classifies organizations as
individual / business / enterprise; the three values are distinct strings. -/
def accountIndividual : String := "individual"

/-- Modelled from the spec: the `AccountType.BUSINESS` enum value. -/
def accountBusiness : String := "business"

/-- Modelled from the spec: the `AccountType.ENTERPRISE` enum value. -/
def accountEnterprise : String := "enterprise"

/-- Modelled from the spec: lower-cased value of `Connectors.GOOGLE_CALENDAR`
(the constants module is not under `src/`; the spec names a calendar
integration that resume skips by design). -/
def connectorCalendar : String := "calendar"

/-- Modelled from the spec: lower-cased value of `Connectors.GOOGLE_DRIVE`. -/
def connectorDrive : String := "drive"

/-- Modelled from the spec: lower-cased value of `Connectors.GOOGLE_MAIL`. -/
def connectorGmail : String := "gmail"

/-- Modelled from the spec: lower-cased value of `Connectors.ONEDRIVE`. -/
def connectorOneDrive : String := "onedrive"

/-- An organization document as returned by `arango_service.get_all_orgs`:
`org["_key"]` plus an optional `accountType` field (`org.get("accountType",
AccountType.INDIVIDUAL.value)` defaults a missing field). -/
structure Org where
  key : String
  accountType : Option String
deriving Repr, DecidableEq

/-- A credentials configuration document fetched from the configuration
collaborator (`config_service.get_config`). Absent fields are `none`;
`.get("tenantId")` etc. -/
structure CredConfig where
  tenantId : Option String
  clientId : Option String
  clientSecret : Option String
  sharepointDomain : Option String
  hasAdminConsent : Option Bool
deriving Repr, DecidableEq

/-- OneDrive credential completeness: `all((tenant_id, client_id,
client_secret))` on the values fetched from the config, where `None` and
`""` are falsy. -/
def odCredsComplete (cfg : CredConfig) : Bool :=
  pyTruthyStr cfg.tenantId && pyTruthyStr cfg.clientId && pyTruthyStr cfg.clientSecret

/-- SharePoint Online credential completeness: `all((tenant_id, client_id,
client_secret, sharepoint_domain))`. -/
def spCredsComplete (cfg : CredConfig) : Bool :=
  pyTruthyStr cfg.tenantId && pyTruthyStr cfg.clientId &&
    pyTruthyStr cfg.clientSecret && pyTruthyStr cfg.sharepointDomain

/-- The collaborator environment of `resume_sync_services`. Each field is
one awaited external call; `Except.error ()` models the call raising. The
outcome of each call depends only on the identifiers passed to it, matching
the Python code where each call site passes only `org_id`. -/
structure ResumeEnv where
  getAllOrgs : Except Unit (List Org)
  initEnterpriseAccount : String → Except Unit Unit
  initIndividualAccount : String → Except Unit Unit
  getUsers : String → Except Unit (List String)
  getOrgApps : String → Except Unit (List String)
  driveInit : String → Except Unit Unit
  gmailInit : String → Except Unit Unit
  processorInit : String → Except Unit Unit
  getConfig : String → Except Unit (Option CredConfig)

/-- Observable side effects of `resume_sync_services`, in program order:
collaborator invocations that the claims talk about, container-provider
overrides (the ConnectorSlot), `asyncio.create_task` spawns, and error log
lines. -/
inductive REffect
  | calledInitEnterprise (orgId : String)
  | calledInitIndividual (orgId : String)
  | invalidAccountTypeLog (orgId : String)
  | driveInitDone (orgId : String)
  | gmailInitDone (orgId : String)
  | processorInitDone (orgId : String)
  | overrodeOneDriveConnector (orgId : String)
  | spawned (orgId : String) (kind : String)
  | errorLog (msg : String)
deriving Repr, DecidableEq

/-- Control-flow outcome of one step of the resume loop: fall through to the
next iteration, `return False` from the whole function (the OneDrive
credential paths), or an uncaught exception that propagates to the single
top-level `except` of `resume_sync_services`. -/
inductive StepOutcome
  | next
  | earlyFalse
  | raised
deriving Repr, DecidableEq

/-- The local variables `drive_sync_service` / `gmail_sync_service` of the
per-org loop: whether each long-lived sync service has been obtained and
initialized during the integration loop (`None` vs. a service instance). -/
structure LoopFlags where
  driveSet : Bool
  gmailSet : Bool
deriving Repr, DecidableEq

/-- The config-service path for OneDrive credentials,
`/services/connectors/onedrive/config/(org_id)`. -/
def configPathOneDrive (orgId : String) : String :=
  "/services/connectors/onedrive/config/" ++ orgId

/-- One iteration of the `for app in enabled_apps` loop of
`resume_sync_services`. The Python source uses four sequential `if`
branches on `app["name"].lower()` compared against four distinct constants,
so at most one branch fires; the calendar branch `continue`s, the OneDrive
branch can `return False` (credentials absent or incomplete) and any
awaited call can raise. -/
def processApp (env : ResumeEnv) (orgId appName : String) (fl : LoopFlags) :
    StepOutcome × LoopFlags × List REffect :=
  let n := strLower appName
  if n == connectorCalendar then
    (.next, fl, [])
  else if n == connectorDrive then
    match env.driveInit orgId with
    | .error _ => (.raised, fl, [])
    | .ok _ => (.next, { fl with driveSet := true }, [.driveInitDone orgId])
  else if n == connectorGmail then
    match env.gmailInit orgId with
    | .error _ => (.raised, fl, [])
    | .ok _ => (.next, { fl with gmailSet := true }, [.gmailInitDone orgId])
  else if n == connectorOneDrive then
    match env.processorInit orgId with
    | .error _ => (.raised, fl, [])
    | .ok _ =>
      match env.getConfig (configPathOneDrive orgId) with
      | .error _ => (.raised, fl, [.processorInitDone orgId])
      | .ok none =>
          (.earlyFalse, fl,
            [.processorInitDone orgId, .errorLog "OneDrive credentials not found"])
      | .ok (some cfg) =>
          if odCredsComplete cfg then
            (.next, fl,
              [.processorInitDone orgId, .overrodeOneDriveConnector orgId,
               .spawned orgId "onedrive"])
          else
            (.earlyFalse, fl,
              [.processorInitDone orgId,
               .errorLog ("Incomplete OneDrive credentials for org_id: " ++ orgId)])
  else
    (.next, fl, [])

/-- The whole `for app in enabled_apps` loop: iterates `processApp`,
stopping early when an iteration raises or returns `False` from the whole
function. -/
def processApps (env : ResumeEnv) (orgId : String) :
    List String → LoopFlags → StepOutcome × LoopFlags × List REffect
  | [], fl => (.next, fl, [])
  | a :: rest, fl =>
    match processApp env orgId a fl with
    | (.next, fl1, e1) =>
      match processApps env orgId rest fl1 with
      | (o, fl2, e2) => (o, fl2, e1 ++ e2)
    | (o, fl1, e1) => (o, fl1, e1)

/-- The launch phase after the integration loop: `if drive_sync_service is
not None: asyncio.create_task(drive_sync_service.perform_initial_sync(...))`
and the same for gmail (each `create_task` is wrapped in a `try` that only
logs, and spawning itself does not raise). -/
def launchPhase (orgId : String) (fl : LoopFlags) : List REffect :=
  (if fl.driveSet then [REffect.spawned orgId "drive"] else []) ++
    (if fl.gmailSet then [REffect.spawned orgId "gmail"] else [])

/-- The per-org body after the account-type routing: fetch active users
(`continue` when empty), fetch enabled apps, run the integration loop, and
only when the loop fell through run the two-phase launch of the collected
drive/gmail services. -/
def processOrgRest (env : ResumeEnv) (orgId : String) : StepOutcome × List REffect :=
  match env.getUsers orgId with
  | .error _ => (.raised, [])
  | .ok users =>
    if users.isEmpty then (.next, [])
    else
      match env.getOrgApps orgId with
      | .error _ => (.raised, [])
      | .ok apps =>
        match processApps env orgId apps ⟨false, false⟩ with
        | (.next, fl, effs) => (.next, effs ++ launchPhase orgId fl)
        | (o, _, effs) => (o, effs)

/-- One iteration of the `for org in orgs` loop: read
`org.get("accountType", AccountType.INDIVIDUAL.value)`, route to the
enterprise/business or individual account bootstrap (either may raise), log
and `continue` on any other value, then run the per-org body. -/
def processOrg (env : ResumeEnv) (org : Org) : StepOutcome × List REffect :=
  let orgId := org.key
  let acct := org.accountType.getD accountIndividual
  if acct == accountEnterprise || acct == accountBusiness then
    match env.initEnterpriseAccount orgId with
    | .error _ => (.raised, [.calledInitEnterprise orgId])
    | .ok _ =>
      match processOrgRest env orgId with
      | (o, e) => (o, .calledInitEnterprise orgId :: e)
  else if acct == accountIndividual then
    match env.initIndividualAccount orgId with
    | .error _ => (.raised, [.calledInitIndividual orgId])
    | .ok _ =>
      match processOrgRest env orgId with
      | (o, e) => (o, .calledInitIndividual orgId :: e)
  else
    (.next, [.invalidAccountTypeLog orgId])

/-- The `for org in orgs` loop: sequential, with no per-iteration exception
handler — the first iteration that raises or `return False`s ends the loop. -/
def runOrgs (env : ResumeEnv) : List Org → StepOutcome × List REffect
  | [] => (.next, [])
  | o :: rest =>
    match processOrg env o with
    | (.next, e1) =>
      match runOrgs env rest with
      | (r, e2) => (r, e1 ++ e2)
    | (r, e1) => (r, e1)

/-- `resume_sync_services`: fetch all active orgs (an empty result returns
`True` immediately), run the org loop, and map its outcome to the boolean
result. A single `try`/`except` wraps the whole body: any exception —
including the initial `get_all_orgs` call raising — is logged and turned
into `return False`. -/
def resumeSyncServices (env : ResumeEnv) : Bool × List REffect :=
  match env.getAllOrgs with
  | .error _ => (false, [.errorLog "Error during sync service resumption"])
  | .ok orgs =>
    if orgs.isEmpty then (true, [])
    else
      match runOrgs env orgs with
      | (.next, effs) => (true, effs)
      | (.earlyFalse, effs) => (false, effs)
      | (.raised, effs) =>
          (false, effs ++ [.errorLog "Error during sync service resumption"])

/-- The spawned sync tasks recorded in an effect list (org, kind). -/
def spawnedTasks (effs : List REffect) : List (String × String) :=
  effs.filterMap fun e =>
    match e with
    | .spawned o k => some (o, k)
    | _ => none

/-- The OneDrive connector-slot overrides recorded in an effect list. -/
def slotOverrides (effs : List REffect) : List String :=
  effs.filterMap fun e =>
    match e with
    | .overrodeOneDriveConnector o => some o
    | _ => none

/-! ## SharePoint Online event service
(`SharePointOnlineEventService` in
`app/connectors/sources/microsoft/sharepoint_online/event_service.py`) -/

/-- The collaborator environment of the event service: processor
construction plus `initialize` (may raise), the configuration service, and
reading the container's `sharepoint_connector` provider (`Except.error`
models the provider call raising, `Except.ok b` returns a truthy (`true`)
or falsy (`false`) connector). -/
structure SPEnv where
  processorInit : Except Unit Unit
  getConfig : String → Except Unit (Option CredConfig)
  getConnector : Except Unit Bool

/-- The event payload as consumed by the handlers: only
`payload.get("orgId")` is read. -/
structure Payload where
  orgId : Option String
deriving Repr, DecidableEq

/-- Observable state touched by the event service: the container's
`sharepoint_connector` provider override (the ConnectorSlot entry, recording
the org of the last registered instance), the number of
`asyncio.create_task` spawns, the processor-initialization attempts, and the
log lines, most recent first. -/
structure SPState where
  slotOverride : Option String
  spawnedCount : Nat
  procInits : List String
  logs : List String
deriving Repr, DecidableEq

/-- Append a log line to the event-service state. -/
def SPState.log (st : SPState) (msg : String) : SPState :=
  { st with logs := msg :: st.logs }

/-- The config-service path for SharePoint credentials,
`/services/connectors/sharepoint/config/(org_id)`. -/
def configPathSharepoint (orgId : String) : String :=
  "/services/connectors/sharepoint/config/" ++ orgId

/-- `_handle_sharepoint_init`: validate `orgId`, construct and initialize
the data-entities processor, fetch and validate credentials, then override
the container's `sharepoint_connector` provider. Its own `try`/`except`
catches every raise, logs and returns `False`; no path spawns a task. -/
def handleSharepointInit (env : SPEnv) (p : Payload) (st : SPState) :
    Bool × SPState :=
  if !pyTruthyStr p.orgId then
    (false, st.log "orgId is required in the payload for sharepointonline.init event")
  else
    let orgId := p.orgId.getD ""
    let st := { st with procInits := st.procInits ++ [orgId] }
    match env.processorInit with
    | .error _ =>
      (false, st.log ("Failed to initialize SharePoint Online connector for org_id " ++ orgId))
    | .ok _ =>
      match env.getConfig (configPathSharepoint orgId) with
      | .error _ =>
        (false, st.log ("Failed to initialize SharePoint Online connector for org_id " ++ orgId))
      | .ok none => (false, st.log "SharePoint Online credentials not found")
      | .ok (some cfg) =>
        if spCredsComplete cfg then
          (true, { st with slotOverride := some orgId })
        else
          (false, st.log ("Incomplete SharePoint Online credentials for org_id: " ++ orgId))

/-- `_handle_sharepoint_start_sync`: validate `orgId` (a falsy value raises
`ValueError`, caught by the handler's own outer `except`), read the
container's `sharepoint_connector` provider (a raise is caught and logged),
and `asyncio.create_task(connector.run())` when a truthy connector is
registered. -/
def handleSharepointStartSync (env : SPEnv) (p : Payload) (st : SPState) :
    Bool × SPState :=
  if !pyTruthyStr p.orgId then
    (false, st.log "Failed to queue SharePoint Online sync service start: orgId is required")
  else
    match env.getConnector with
    | .error _ => (false, st.log "Failed to get SharePoint Online connector")
    | .ok true => (true, { st with spawnedCount := st.spawnedCount + 1 })
    | .ok false => (false, st.log "SharePoint Online connector not initialized")

/-- `process_event`: first log the info entry line
`Handling SharePoint Online connector event: {event_type}` (the only log
line that ties a dispatch to its event type; it goes to the same logger
stream as the error lines), then route on the exact `event_type` string —
`start` and `resync` call the same handler; anything else logs the unknown
event type and returns `False`. The method's outer `try`/`except` would log
a raise together with the event type and return `False`, but every handler
catches its own errors (and in this embedding is total), so no exception
reaches that outer handler or the dispatch boundary. -/
def processEvent (env : SPEnv) (eventType : String) (p : Payload) (st : SPState) :
    Bool × SPState :=
  let st := st.log ("Handling SharePoint Online connector event: " ++ eventType)
  if eventType == "sharepointonline.init" then
    handleSharepointInit env p st
  else if eventType == "sharepointonline.start" then
    handleSharepointStartSync env p st
  else if eventType == "sharepointonline.resync" then
    handleSharepointStartSync env p st
  else
    (false, st.log ("Unknown sharepoint online connector event type: " ++ eventType))

/-! ## Messaging lifecycle
(`start_messaging_producer`, `start_kafka_consumers`, `stop_kafka_consumers`,
`stop_messaging_producer`, `shutdown_container_resources` and `lifespan` in
`app/connectors_main.py`) -/

/-- The behavior of one named consumer in the startup sequence of
`start_kafka_consumers` (the source starts the "entity" consumer, then the
"sync" consumer; each step builds a config, a consumer, a handler, and
awaits `consumer.start(handler)`): whether the config/handler/start steps
raise, and whether a later `consumer.stop()` raises. -/
structure ConsumerSpec where
  name : String
  startFails : Bool
  stopFails : Bool
deriving Repr, DecidableEq

/-- Observable effects of the messaging lifecycle, in program order. -/
inductive MEffect
  | producerStarted
  | consumerStarted (name : String)
  | consumerStopCalled (name : String)
  | consumerStopErrorLogged (name : String)
  | producerCleanupCalled
  | producerCleanupErrorLogged
  | resumeTaskSpawned
deriving Repr, DecidableEq

/-- Stopping a list of (name, consumer) pairs in order, each
`await consumer.stop()` wrapped in its own `try`/`except` that only logs —
the loop body of both the cleanup in `start_kafka_consumers` and of
`stop_kafka_consumers`. -/
def stopEach : List ConsumerSpec → List MEffect
  | [] => []
  | c :: rest =>
    (MEffect.consumerStopCalled c.name ::
        (if c.stopFails then [MEffect.consumerStopErrorLogged c.name] else [])) ++
      stopEach rest

/-- The body of `start_kafka_consumers` from the point where `started` lists
the consumers appended to `consumers` so far (in start order) and `rest`
still has to start: on the first failure the `except` block stops every
consumer started so far (each stop individually guarded) and re-raises. -/
def startConsumersGo (started : List ConsumerSpec) :
    List ConsumerSpec → Except Unit (List String) × List MEffect
  | [] => (.ok (started.map (·.name)), [])
  | c :: rest =>
    if c.startFails then
      (.error (), stopEach started)
    else
      match startConsumersGo (started ++ [c]) rest with
      | (r, effs) => (r, MEffect.consumerStarted c.name :: effs)

/-- `start_kafka_consumers`: start each consumer in order; on success return
the list of `(name, consumer)` pairs, on failure stop the already-started
consumers and re-raise. -/
def startKafkaConsumers (specs : List ConsumerSpec) :
    Except Unit (List String) × List MEffect :=
  startConsumersGo [] specs

/-- The application container attributes touched by the messaging shutdown
path: `container.kafka_consumers` (absent is modelled as the empty list,
matching `getattr(container, 'kafka_consumers', [])`) and
`container.messaging_producer` (`none` when absent, `some cleanupFails`
records whether `producer.cleanup()` raises). -/
structure MContainer where
  kafkaConsumers : List ConsumerSpec
  messagingProducer : Option Bool
deriving Repr, DecidableEq

/-- `stop_kafka_consumers`: stop every consumer in
`container.kafka_consumers` (each stop guarded, failures logged), then clear
the list. Never raises. -/
def stopKafkaConsumers (st : MContainer) : MContainer × List MEffect :=
  ({ st with kafkaConsumers := [] }, stopEach st.kafkaConsumers)

/-- `stop_messaging_producer`: if `container.messaging_producer` is set,
await `producer.cleanup()` inside a `try`/`except` that only logs; the
attribute is never cleared. Never raises. -/
def stopMessagingProducer (st : MContainer) : MContainer × List MEffect :=
  match st.messagingProducer with
  | none => (st, [])
  | some cleanupFails =>
    (st, MEffect.producerCleanupCalled ::
      (if cleanupFails then [MEffect.producerCleanupErrorLogged] else []))

/-- `shutdown_container_resources`: stop consumers, then the producer
(its own `try`/`except` only logs). This is the `stop()` of the messaging
lifecycle, run from `lifespan` after `yield`. -/
def shutdownContainerResources (st : MContainer) : MContainer × List MEffect :=
  match stopKafkaConsumers st with
  | (st1, e1) =>
    match stopMessagingProducer st1 with
    | (st2, e2) => (st2, e1 ++ e2)

/-- The startup half of `lifespan`: start the messaging producer first (a
raise is logged and re-raised, aborting startup before any consumer
exists), then `start_kafka_consumers` (a raise is logged and re-raised),
then `asyncio.create_task(resume_sync_services(...))`. Returns the consumer
list stored into `app_container.kafka_consumers` on success. -/
def lifespanStartup (producerFails : Bool) (specs : List ConsumerSpec) :
    Except Unit (List String) × List MEffect :=
  if producerFails then
    (.error (), [])
  else
    match startKafkaConsumers specs with
    | (.error _, effs) => (.error (), MEffect.producerStarted :: effs)
    | (.ok names, effs) =>
      (.ok names,
        (MEffect.producerStarted :: effs) ++ [MEffect.resumeTaskSpawned])

/-- The consumers still running according to an effect list: started and not
(yet) stopped. -/
def runningConsumers (effs : List MEffect) : List String :=
  (effs.filterMap fun e =>
    match e with
    | .consumerStarted n => some n
    | _ => none).filter fun n =>
      !(effs.contains (MEffect.consumerStopCalled n))

/-! ## Record entity model (`Record` in `app/models/entities.py`) -/

/-- `RecordType(str, Enum)`. -/
inductive RecordType
  | FILE | DRIVE | WEBPAGE | MESSAGE | MAIL | TICKET | OTHERS
deriving Repr, DecidableEq

/-- The string value of a `RecordType` member (`self.record_type.value`). -/
def RecordType.val : RecordType → String
  | .FILE => "FILE"
  | .DRIVE => "DRIVE"
  | .WEBPAGE => "WEBPAGE"
  | .MESSAGE => "MESSAGE"
  | .MAIL => "MAIL"
  | .TICKET => "TICKET"
  | .OTHERS => "OTHERS"

/-- Pydantic coercion of a string into `RecordType` (used when
`from_arango_base_record` passes `arango_base_record["recordType"]`, a
string, as the `record_type` field); an unrecognized string is a validation
error. -/
def RecordType.ofString (s : String) : Option RecordType :=
  if s == "FILE" then some .FILE
  else if s == "DRIVE" then some .DRIVE
  else if s == "WEBPAGE" then some .WEBPAGE
  else if s == "MESSAGE" then some .MESSAGE
  else if s == "MAIL" then some .MAIL
  else if s == "TICKET" then some .TICKET
  else if s == "OTHERS" then some .OTHERS
  else none

/-- `RecordStatus(str, Enum)`. -/
inductive RecordStatus
  | NOT_STARTED | IN_PROGRESS | PAUSED | FAILED | COMPLETED
  | FILE_TYPE_NOT_SUPPORTED | MANUAL_SYNC | AUTO_INDEX_OFF
deriving Repr, DecidableEq

/-- A JSON-ish value stored in an Arango document dict. -/
inductive AValue
  | s (v : String)
  | i (v : Int)
  | b (v : Bool)
  | null
deriving Repr, DecidableEq

/-- An optional string serialized into a dict value (`None` becomes null). -/
def optStr : Option String → AValue
  | none => .null
  | some v => .s v

/-- An optional int serialized into a dict value. -/
def optInt : Option Int → AValue
  | none => .null
  | some v => .i v

/-- A Python dict with string keys, as an ordered association list. -/
def ADict : Type := List (String × AValue)

/-- Dict key lookup: `d.get(k)` — `none` when the key is absent. -/
def dget (d : ADict) (k : String) : Option AValue :=
  (List.find? (fun kv => kv.1 == k) d).map (·.2)

/-- Read a dict value into a required `str` field. -/
def asStr : AValue → Option String
  | .s v => some v
  | _ => none

/-- Read a dict value into an `Optional[str]` field (null becomes `None`). -/
def asOptStr : AValue → Option (Option String)
  | .s v => some (some v)
  | .null => some none
  | _ => none

/-- Read a dict value into a required `int` field. -/
def asInt : AValue → Option Int
  | .i v => some v
  | _ => none

/-- Read a dict value into an `Optional[int]` field. -/
def asOptInt : AValue → Option (Option Int)
  | .i v => some v
  | .null => some none
  | _ => none

/-- The `Record` pydantic model: its scalar and optional fields.
`block_containers : BlocksContainer` and `semantic_metadata` live in
`app.models.blocks`, which is not under `src/`; they are neither written by
`to_arango_base_record` nor read by `from_arango_base_record` and are
omitted here. The source declares `mime_type` twice (lines 57 and 68); the
later `Optional[str] = None` declaration is the effective one. -/
structure Record where
  id : String
  org_id : String
  record_name : String
  record_type : RecordType
  record_status : RecordStatus
  parent_record_type : Option String
  record_group_type : Option String
  external_record_id : String
  external_revision_id : Option String
  external_record_group_id : Option String
  parent_external_record_id : Option String
  version : Int
  origin : String
  connector_name : Option String
  virtual_record_id : Option String
  summary_document_id : Option String
  md5_hash : Option String
  mime_type : Option String
  created_at : Int
  updated_at : Int
  source_created_at : Option Int
  source_updated_at : Option Int
  weburl : Option String
  signed_url : Option String
  fetch_signed_url : Option String
  parent_record_id : Option String
  child_record_ids : List String
  related_record_ids : List String
deriving Repr, DecidableEq

/-- `Record.to_arango_base_record`, key for key in source order. -/
def Record.to_arango_base_record (r : Record) : ADict :=
  [("_key", .s r.id),
   ("orgId", .s r.org_id),
   ("recordName", .s r.record_name),
   ("recordType", .s r.record_type.val),
   ("externalRecordId", .s r.external_record_id),
   ("externalRevisionId", optStr r.external_revision_id),
   ("externalGroupId", optStr r.external_record_group_id),
   ("externalParentId", optStr r.parent_external_record_id),
   ("version", .i r.version),
   ("origin", .s r.origin),
   ("connectorName", optStr r.connector_name),
   ("mimeType", optStr r.mime_type),
   ("webUrl", optStr r.weburl),
   ("createdAtTimestamp", .i r.created_at),
   ("updatedAtTimestamp", .i r.updated_at),
   ("sourceCreatedAtTimestamp", optInt r.source_created_at),
   ("sourceLastModifiedTimestamp", optInt r.source_updated_at),
   ("indexingStatus", .s "NOT_STARTED"),
   ("extractionStatus", .s "NOT_STARTED"),
   ("isDeleted", .b false),
   ("isArchived", .b false),
   ("deletedByUserId", .null)]

/-- `Record.from_arango_base_record`: bracket access (`d["k"]`, a KeyError
when absent) for the required keys, `.get(k, None)` for `externalGroupId`
and `externalParentId`; every field not passed to the constructor takes its
pydantic default (`record_status = NOT_STARTED`, optionals `None`, list
fields empty). Returns `none` when a required key is absent or a value
fails pydantic validation. -/
def Record.from_arango_base_record (d : ADict) : Option Record := do
  let id ← dget d "_key" >>= asStr
  let orgId ← dget d "orgId" >>= asStr
  let recordName ← dget d "recordName" >>= asStr
  let recordType ← dget d "recordType" >>= asStr >>= RecordType.ofString
  let externalRecordId ← dget d "externalRecordId" >>= asStr
  let externalGroupId ←
    match dget d "externalGroupId" with
    | none => some none
    | some v => asOptStr v
  let externalParentId ←
    match dget d "externalParentId" with
    | none => some none
    | some v => asOptStr v
  let version ← dget d "version" >>= asInt
  let origin ← dget d "origin" >>= asStr
  let connectorName ← dget d "connectorName" >>= asOptStr
  let mimeType ← dget d "mimeType" >>= asOptStr
  let webUrl ← dget d "webUrl" >>= asOptStr
  let createdAt ← dget d "createdAtTimestamp" >>= asInt
  let updatedAt ← dget d "updatedAtTimestamp" >>= asInt
  let sourceCreatedAt ← dget d "sourceCreatedAtTimestamp" >>= asOptInt
  let sourceUpdatedAt ← dget d "sourceLastModifiedTimestamp" >>= asOptInt
  pure
    { id := id
      org_id := orgId
      record_name := recordName
      record_type := recordType
      record_status := .NOT_STARTED
      parent_record_type := none
      record_group_type := none
      external_record_id := externalRecordId
      external_revision_id := none
      external_record_group_id := externalGroupId
      parent_external_record_id := externalParentId
      version := version
      origin := origin
      connector_name := connectorName
      virtual_record_id := none
      summary_document_id := none
      md5_hash := none
      mime_type := mimeType
      created_at := createdAt
      updated_at := updatedAt
      source_created_at := sourceCreatedAt
      source_updated_at := sourceUpdatedAt
      weburl := webUrl
      signed_url := none
      fetch_signed_url := none
      parent_record_id := none
      child_record_ids := []
      related_record_ids := [] }

/-! ## Concrete test fixtures -/

/-- A complete OneDrive/SharePoint credentials configuration. -/
def cfgComplete : CredConfig :=
  { tenantId := some "t", clientId := some "c", clientSecret := some "s",
    sharepointDomain := some "d", hasAdminConsent := some false }

/-- The incomplete credentials of spec property P2:
`(tenantId: "t", clientId: "", clientSecret: "s")`. -/
def cfgEmptyClientId : CredConfig :=
  { tenantId := some "t", clientId := some "", clientSecret := some "s",
    sharepointDomain := none, hasAdminConsent := none }

/-- Two orgs without an `accountType` field; the individual account
bootstrap raises for `orgA` only; every org has an active user and an
enabled drive integration, so `orgB` would spawn a drive sync task if it
were processed. -/
def envTwoOrgsFirstInitRaises : ResumeEnv :=
  { getAllOrgs := .ok [⟨"orgA", none⟩, ⟨"orgB", none⟩]
    initEnterpriseAccount := fun _ => .ok ()
    initIndividualAccount := fun o => if o == "orgA" then .error () else .ok ()
    getUsers := fun _ => .ok ["u1"]
    getOrgApps := fun _ => .ok ["drive"]
    driveInit := fun _ => .ok ()
    gmailInit := fun _ => .ok ()
    processorInit := fun _ => .ok ()
    getConfig := fun _ => .ok (some cfgComplete) }

/-- One org whose `get_users` call raises; everything else succeeds. -/
def envUsersCallRaises : ResumeEnv :=
  { getAllOrgs := .ok [⟨"org1", some "individual"⟩]
    initEnterpriseAccount := fun _ => .ok ()
    initIndividualAccount := fun _ => .ok ()
    getUsers := fun _ => .error ()
    getOrgApps := fun _ => .ok []
    driveInit := fun _ => .ok ()
    gmailInit := fun _ => .ok ()
    processorInit := fun _ => .ok ()
    getConfig := fun _ => .ok (some cfgComplete) }

/-- One org with drive and gmail enabled and everything succeeding. -/
def envDriveGmailOk : ResumeEnv :=
  { getAllOrgs := .ok [⟨"org1", none⟩]
    initEnterpriseAccount := fun _ => .ok ()
    initIndividualAccount := fun _ => .ok ()
    getUsers := fun _ => .ok ["u1"]
    getOrgApps := fun _ => .ok ["drive", "gmail"]
    driveInit := fun _ => .ok ()
    gmailInit := fun _ => .ok ()
    processorInit := fun _ => .ok ()
    getConfig := fun _ => .ok (some cfgComplete) }

/-- One org with drive discovered first and a OneDrive integration whose
credentials are absent from the configuration service. -/
def envDriveThenOneDriveNoCreds : ResumeEnv :=
  { getAllOrgs := .ok [⟨"org1", none⟩]
    initEnterpriseAccount := fun _ => .ok ()
    initIndividualAccount := fun _ => .ok ()
    getUsers := fun _ => .ok ["u1"]
    getOrgApps := fun _ => .ok ["drive", "onedrive"]
    driveInit := fun _ => .ok ()
    gmailInit := fun _ => .ok ()
    processorInit := fun _ => .ok ()
    getConfig := fun _ => .ok none }

/-- One org with a OneDrive integration whose credentials have an empty
`clientId` (spec property P2); the processor initializes fine. -/
def envOneDriveEmptyClientId : ResumeEnv :=
  { getAllOrgs := .ok [⟨"org1", none⟩]
    initEnterpriseAccount := fun _ => .ok ()
    initIndividualAccount := fun _ => .ok ()
    getUsers := fun _ => .ok ["u1"]
    getOrgApps := fun _ => .ok ["onedrive"]
    driveInit := fun _ => .ok ()
    gmailInit := fun _ => .ok ()
    processorInit := fun _ => .ok ()
    getConfig := fun _ => .ok (some cfgEmptyClientId) }

/-- A SharePoint event-service environment with incomplete credentials
(empty `clientId`) and a working processor and connector provider. -/
def spEnvEmptyClientId : SPEnv :=
  { processorInit := .ok ()
    getConfig := fun _ => .ok (some ⟨some "t", some "", some "s", some "d", none⟩)
    getConnector := .ok true }

/-- A SharePoint event-service environment where both the processor
initialization and the connector-provider read raise. -/
def spEnvCollaboratorsRaise : SPEnv :=
  { processorInit := .error ()
    getConfig := fun _ => .ok (some cfgComplete)
    getConnector := .error () }

/-- An event-service state with one registered connector and one spawned
task, used to observe that failed dispatches leave it unchanged. -/
def spStateOne : SPState :=
  { slotOverride := some "org0", spawnedCount := 1, procInits := [], logs := [] }

/-- Three consumers of which the second fails to start (spec property P5). -/
def specsSecondFails : List ConsumerSpec :=
  [⟨"entity", false, false⟩, ⟨"sync", true, false⟩, ⟨"extra", false, false⟩]

/-- A container holding a messaging producer whose cleanup succeeds and no
consumers, as left behind after a successful startup and first shutdown. -/
def containerWithProducer : MContainer :=
  { kafkaConsumers := [⟨"entity", false, false⟩, ⟨"sync", false, false⟩]
    messagingProducer := some false }

/-! ## Theorems -/

theorem asOptStr_optStr (x : Option String) : asOptStr (optStr x) = some x := by
  cases x <;> rfl

theorem asOptInt_optInt (x : Option Int) : asOptInt (optInt x) = some x := by
  cases x <;> rfl

theorem RecordType.ofString_val (t : RecordType) : RecordType.ofString t.val = some t := by
  cases t <;> rfl

/-- C10: for every `Record` `r`,
`Record.from_arango_base_record (r.to_arango_base_record)` succeeds and
returns a record that agrees with `r` on id, org_id, record_name,
record_type, external_record_id, external_record_group_id,
parent_external_record_id, version, origin, connector_name, mime_type,
weburl, created_at, updated_at, source_created_at and source_updated_at,
while record_status is reset to `NOT_STARTED` and external_revision_id and
record_group_type are reset to `None`. -/
theorem record_roundtrip (r : Record) :
    ∃ r2, Record.from_arango_base_record (Record.to_arango_base_record r) = some r2 ∧
      r2.id = r.id ∧ r2.org_id = r.org_id ∧ r2.record_name = r.record_name ∧
      r2.record_type = r.record_type ∧
      r2.external_record_id = r.external_record_id ∧
      r2.external_record_group_id = r.external_record_group_id ∧
      r2.parent_external_record_id = r.parent_external_record_id ∧
      r2.version = r.version ∧ r2.origin = r.origin ∧
      r2.connector_name = r.connector_name ∧ r2.mime_type = r.mime_type ∧
      r2.weburl = r.weburl ∧ r2.created_at = r.created_at ∧
      r2.updated_at = r.updated_at ∧
      r2.source_created_at = r.source_created_at ∧
      r2.source_updated_at = r.source_updated_at ∧
      r2.record_status = RecordStatus.NOT_STARTED ∧
      r2.external_revision_id = none ∧ r2.record_group_type = none := by
  refine ⟨{ r with
      record_status := .NOT_STARTED
      external_revision_id := none
      record_group_type := none
      parent_record_type := none
      virtual_record_id := none
      summary_document_id := none
      md5_hash := none
      signed_url := none
      fetch_signed_url := none
      parent_record_id := none
      child_record_ids := []
      related_record_ids := [] }, ?_,
      rfl, rfl, rfl, rfl, rfl, rfl, rfl, rfl, rfl, rfl, rfl, rfl, rfl, rfl,
      rfl, rfl, rfl, rfl, rfl⟩
  simp [Record.from_arango_base_record, Record.to_arango_base_record, dget,
    List.find?, asStr, asInt, asOptStr_optStr, asOptInt_optInt,
    RecordType.ofString_val]

theorem handleSharepointStartSync_state_parts (env : SPEnv) (p : Payload)
    (s1 s2 : SPState)
    (hslot : s1.slotOverride = s2.slotOverride)
    (hsp : s1.spawnedCount = s2.spawnedCount)
    (hpi : s1.procInits = s2.procInits) :
    (handleSharepointStartSync env p s1).1 =
        (handleSharepointStartSync env p s2).1 ∧
      (handleSharepointStartSync env p s1).2.slotOverride =
        (handleSharepointStartSync env p s2).2.slotOverride ∧
      (handleSharepointStartSync env p s1).2.spawnedCount =
        (handleSharepointStartSync env p s2).2.spawnedCount ∧
      (handleSharepointStartSync env p s1).2.procInits =
        (handleSharepointStartSync env p s2).2.procInits := by
  simp only [handleSharepointStartSync]
  cases ht : pyTruthyStr p.orgId
  · simp [SPState.log, hslot, hsp, hpi]
  · cases hc : env.getConnector with
    | error e => simp [SPState.log, hslot, hsp, hpi]
    | ok b => cases b <;> simp [SPState.log, hslot, hsp, hpi]

/-- C7: for every environment, payload and state, dispatching
`sharepointonline.resync` and dispatching `sharepointonline.start` run the
identical `_handle_sharepoint_start_sync` call: each dispatch equals that
handler applied after the shared entry log line (whose text differs only by
naming the event actually dispatched), so the return value and every
semantic state component — the connector-slot override, the spawned-task
count and the processor-initialization record — coincide between the two
dispatches. -/
theorem resync_equals_start (env : SPEnv) (p : Payload) (st : SPState) :
    processEvent env "sharepointonline.resync" p st =
      handleSharepointStartSync env p
        (st.log "Handling SharePoint Online connector event: sharepointonline.resync") ∧
      processEvent env "sharepointonline.start" p st =
        handleSharepointStartSync env p
          (st.log "Handling SharePoint Online connector event: sharepointonline.start") ∧
      (processEvent env "sharepointonline.resync" p st).1 =
        (processEvent env "sharepointonline.start" p st).1 ∧
      (processEvent env "sharepointonline.resync" p st).2.slotOverride =
        (processEvent env "sharepointonline.start" p st).2.slotOverride ∧
      (processEvent env "sharepointonline.resync" p st).2.spawnedCount =
        (processEvent env "sharepointonline.start" p st).2.spawnedCount ∧
      (processEvent env "sharepointonline.resync" p st).2.procInits =
        (processEvent env "sharepointonline.start" p st).2.procInits := by
  refine ⟨rfl, rfl, ?_⟩
  have h := handleSharepointStartSync_state_parts env p
    (st.log "Handling SharePoint Online connector event: sharepointonline.resync")
    (st.log "Handling SharePoint Online connector event: sharepointonline.start")
    rfl rfl rfl
  exact h

theorem invalid_log_notin_processApp (env : ResumeEnv) (orgId a : String)
    (fl : LoopFlags) (o : String) :
    REffect.invalidAccountTypeLog o ∉ (processApp env orgId a fl).2.2 := by
  simp only [processApp]
  split_ifs <;> (repeat' split) <;> simp

theorem invalid_log_notin_processApps (env : ResumeEnv) (orgId o : String) :
    ∀ (apps : List String) (fl : LoopFlags),
      REffect.invalidAccountTypeLog o ∉ (processApps env orgId apps fl).2.2 := by
  intro apps
  induction apps with
  | nil => intro fl; simp [processApps]
  | cons a rest ih =>
    intro fl
    have h1 := invalid_log_notin_processApp env orgId a fl o
    simp only [processApps]
    rcases h : processApp env orgId a fl with ⟨o1, fl1, e1⟩
    rw [h] at h1
    cases o1 with
    | next =>
      dsimp only
      have h2 := ih fl1
      rcases hr : processApps env orgId rest fl1 with ⟨o2, fl2, e2⟩
      rw [hr] at h2
      simpa using not_or.mpr ⟨h1, h2⟩
    | earlyFalse => simpa using h1
    | raised => simpa using h1

theorem invalid_log_notin_launchPhase (orgId : String) (fl : LoopFlags)
    (o : String) :
    REffect.invalidAccountTypeLog o ∉ launchPhase orgId fl := by
  rcases fl with ⟨d, g⟩
  cases d <;> cases g <;> simp [launchPhase]

theorem invalid_log_notin_processOrgRest (env : ResumeEnv) (orgId o : String) :
    REffect.invalidAccountTypeLog o ∉ (processOrgRest env orgId).2 := by
  simp only [processOrgRest]
  cases hu : env.getUsers orgId with
  | error e => simp
  | ok users =>
    dsimp only
    cases he : users.isEmpty with
    | true => simp [he]
    | false =>
      simp only [he, Bool.false_eq_true, if_false]
      cases ha : env.getOrgApps orgId with
      | error e => simp
      | ok apps =>
        dsimp only
        have h1 := invalid_log_notin_processApps env orgId o apps ⟨false, false⟩
        rcases hp : processApps env orgId apps ⟨false, false⟩ with ⟨o1, fl1, e1⟩
        rw [hp] at h1
        have h2 := invalid_log_notin_launchPhase orgId fl1 o
        cases o1 with
        | next => simpa using not_or.mpr ⟨h1, h2⟩
        | earlyFalse => simpa using h1
        | raised => simpa using h1

theorem missing_account_type_defaults_individual (env : ResumeEnv) (org : Org)
    (h : org.accountType = none) :
    (processOrg env org).2.head? = some (REffect.calledInitIndividual org.key) ∧
      REffect.invalidAccountTypeLog org.key ∉ (processOrg env org).2 := by
  simp only [processOrg]
  rw [h]
  simp only [Option.getD_none, accountIndividual, accountEnterprise, accountBusiness]
  rw [if_neg (by simp)]
  cases hin : env.initIndividualAccount org.key with
  | error e => simp
  | ok u =>
    have h2 := invalid_log_notin_processOrgRest env org.key org.key
    rcases hr : processOrgRest env org.key with ⟨o1, e1⟩
    rw [hr] at h2
    simpa using h2

/-- Witness for `missing_account_type_defaults_individual` at the concrete
organization `orgA` of `envTwoOrgsFirstInitRaises`, which has no
`accountType` field. -/
theorem missing_account_type_defaults_individual_witness :
    (Org.mk "orgA" none).accountType = none ∧
      ((processOrg envTwoOrgsFirstInitRaises ⟨"orgA", none⟩).2.head? =
          some (REffect.calledInitIndividual "orgA") ∧
        REffect.invalidAccountTypeLog "orgA" ∉
          (processOrg envTwoOrgsFirstInitRaises ⟨"orgA", none⟩).2) :=
  ⟨rfl, missing_account_type_defaults_individual envTwoOrgsFirstInitRaises
    ⟨"orgA", none⟩ rfl⟩

/-- C1 counterexample: with two organizations where orgA's individual
account-initialization collaborator raises and orgB (active user, enabled
drive integration, complete credentials) would spawn a drive sync task if
it were processed, `resume_sync_services` returns `false` — not `true` —
and spawns no task at all: orgB is never attempted. -/
theorem resume_org_isolation_cx :
    (resumeSyncServices envTwoOrgsFirstInitRaises).1 = false ∧
      spawnedTasks (resumeSyncServices envTwoOrgsFirstInitRaises).2 = [] := by
  decide

/-- C1 (amended): `resume_sync_services` has a single top-level error
boundary, not a per-org one: when the account-initialization collaborator
raises for the first organization, the exception propagates out of the org
loop to the function-level handler, `resume()` returns `false` without
attempting any remaining organization, and zero sync tasks are spawned. -/
theorem resume_no_per_org_boundary (env : ResumeEnv) (org : Org)
    (rest : List Org)
    (horgs : env.getAllOrgs = .ok (org :: rest))
    (hacct : org.accountType.getD accountIndividual = accountIndividual)
    (hraise : env.initIndividualAccount org.key = .error ()) :
    resumeSyncServices env =
      (false, [REffect.calledInitIndividual org.key,
               REffect.errorLog "Error during sync service resumption"]) ∧
      spawnedTasks (resumeSyncServices env).2 = [] := by
  have hpo : processOrg env org = (.raised, [.calledInitIndividual org.key]) := by
    simp only [processOrg, hacct, hraise]
    simp [accountIndividual, accountEnterprise, accountBusiness]
  have hres : resumeSyncServices env =
      (false, [REffect.calledInitIndividual org.key,
               REffect.errorLog "Error during sync service resumption"]) := by
    simp only [resumeSyncServices, horgs, runOrgs, hpo]
    simp
  refine ⟨hres, ?_⟩
  rw [hres]
  rfl

/-- Witness for `resume_no_per_org_boundary` at
`envTwoOrgsFirstInitRaises`, whose first org `orgA` has no account type
(defaulting to individual) and whose individual bootstrap raises. -/
theorem resume_no_per_org_boundary_witness :
    (envTwoOrgsFirstInitRaises.getAllOrgs =
        .ok [⟨"orgA", none⟩, ⟨"orgB", none⟩] ∧
      envTwoOrgsFirstInitRaises.initIndividualAccount "orgA" = .error ()) ∧
      (resumeSyncServices envTwoOrgsFirstInitRaises =
        (false, [REffect.calledInitIndividual "orgA",
                 REffect.errorLog "Error during sync service resumption"]) ∧
      spawnedTasks (resumeSyncServices envTwoOrgsFirstInitRaises).2 = []) :=
  ⟨⟨rfl, rfl⟩, resume_no_per_org_boundary envTwoOrgsFirstInitRaises
    ⟨"orgA", none⟩ [⟨"orgB", none⟩] rfl rfl rfl⟩

/-- C3 counterexample: a single organization whose `get_users` collaborator
call raises makes `resume_sync_services` return `false` even though the
top-level enumeration of organizations succeeded — contradicting the claim
that `true` is returned whenever the enumeration itself succeeds. -/
theorem resume_true_despite_failures_cx :
    envUsersCallRaises.getAllOrgs = .ok [⟨"org1", some "individual"⟩] ∧
      (resumeSyncServices envUsersCallRaises).1 = false :=
  ⟨rfl, by decide⟩

theorem runOrgs_next_iff (env : ResumeEnv) (orgs : List Org) :
    (runOrgs env orgs).1 = StepOutcome.next ↔
      ∀ o ∈ orgs, (processOrg env o).1 = StepOutcome.next := by
  induction orgs with
  | nil => simp [runOrgs]
  | cons o rest ih =>
    simp only [runOrgs]
    rcases hp : processOrg env o with ⟨oc, e1⟩
    cases oc with
    | next =>
      dsimp only
      rcases hr : runOrgs env rest with ⟨rc, e2⟩
      rw [hr] at ih
      simp only [List.forall_mem_cons, hp]
      simp [ih]
    | earlyFalse => simp [List.forall_mem_cons, hp]
    | raised => simp [List.forall_mem_cons, hp]

/-- C3 (corrected characterization): `resume_sync_services` returns `true`
iff the organization enumeration succeeded AND every organization's
processing ran to completion — without any collaborator raising and without
a OneDrive credential failure (either of which makes the whole function
return `false`, because its one `try`/`except` wraps the entire loop and
the OneDrive credential paths `return False` directly). -/
theorem resume_result_characterization (env : ResumeEnv) :
    (resumeSyncServices env).1 = true ↔
      ∃ orgs, env.getAllOrgs = Except.ok orgs ∧
        ∀ o ∈ orgs, (processOrg env o).1 = StepOutcome.next := by
  cases hg : env.getAllOrgs with
  | error e =>
    simp only [resumeSyncServices, hg]
    constructor
    · intro h; exact absurd h (by simp)
    · rintro ⟨orgs, horgs, hall⟩; cases horgs
  | ok orgs =>
    simp only [resumeSyncServices, hg]
    have hrhs : (∃ orgs2, (Except.ok orgs : Except Unit (List Org)) = Except.ok orgs2 ∧
        ∀ o ∈ orgs2, (processOrg env o).1 = StepOutcome.next) ↔
        ∀ o ∈ orgs, (processOrg env o).1 = StepOutcome.next := by
      constructor
      · rintro ⟨orgs2, heq, hall⟩
        cases heq
        exact hall
      · intro hall
        exact ⟨orgs, rfl, hall⟩
    rw [hrhs]
    by_cases he : orgs.isEmpty
    · rw [List.isEmpty_iff.mp he]
      simp
    · simp only [he, Bool.false_eq_true, if_false]
      have hiff := runOrgs_next_iff env orgs
      rcases hr : runOrgs env orgs with ⟨rc, effs⟩
      rw [hr] at hiff
      cases rc with
      | next => simpa using hiff
      | earlyFalse => simpa using hiff
      | raised => simpa using hiff

/-- C4 counterexample: for an org whose enabled integrations are
`["drive", "onedrive"]` with absent OneDrive credentials, the drive sync
service is discovered and initialized in the integration loop but its
initial-sync work is never spawned: the OneDrive credential failure makes
the whole resume return `false` before the launch phase. -/
theorem two_phase_launch_cx :
    REffect.driveInitDone "org1" ∈
        (resumeSyncServices envDriveThenOneDriveNoCreds).2 ∧
      spawnedTasks (resumeSyncServices envDriveThenOneDriveNoCreds).2 = [] ∧
      (resumeSyncServices envDriveThenOneDriveNoCreds).1 = false := by
  decide

/-- C4 (amended): the collect-then-launch structure only launches the
collected drive/gmail services when the integration loop runs to
completion: if users and apps are fetched successfully and the whole
`for app in enabled_apps` loop falls through (no exception, no OneDrive
credential failure), then every sync service collected during the loop has
its initial-sync unit of work spawned in the launch phase — a merely absent
or unrecognized integration does not prevent this, but a OneDrive
credential failure or an exception aborts the whole resume before the
launch phase. -/
theorem collected_services_launched_when_loop_completes (env : ResumeEnv)
    (orgId : String) (users apps : List String) (fl : LoopFlags)
    (effs : List REffect)
    (hu : env.getUsers orgId = .ok users) (hne : users.isEmpty = false)
    (ha : env.getOrgApps orgId = .ok apps)
    (hl : processApps env orgId apps ⟨false, false⟩ = (.next, fl, effs)) :
    (fl.driveSet = true →
        REffect.spawned orgId "drive" ∈ (processOrgRest env orgId).2) ∧
      (fl.gmailSet = true →
        REffect.spawned orgId "gmail" ∈ (processOrgRest env orgId).2) := by
  simp only [processOrgRest, hu, hne, ha, hl, Bool.false_eq_true, if_false]
  rcases fl with ⟨d, g⟩
  constructor
  · intro hd
    subst hd
    cases g <;> simp [launchPhase]
  · intro hg
    subst hg
    cases d <;> simp [launchPhase]

/-- Witness for `collected_services_launched_when_loop_completes` at
`envDriveGmailOk`: both drive and gmail are collected and both spawns are
present in the launch phase. -/
theorem collected_services_launched_witness :
    (envDriveGmailOk.getUsers "org1" = .ok ["u1"] ∧
      envDriveGmailOk.getOrgApps "org1" = .ok ["drive", "gmail"] ∧
      processApps envDriveGmailOk "org1" ["drive", "gmail"] ⟨false, false⟩ =
        (.next, ⟨true, true⟩,
          [REffect.driveInitDone "org1", REffect.gmailInitDone "org1"])) ∧
      ((true = true →
          REffect.spawned "org1" "drive" ∈
            (processOrgRest envDriveGmailOk "org1").2) ∧
        (true = true →
          REffect.spawned "org1" "gmail" ∈
            (processOrgRest envDriveGmailOk "org1").2)) :=
  ⟨⟨rfl, rfl, by decide⟩,
    collected_services_launched_when_loop_completes envDriveGmailOk "org1"
      ["u1"] ["drive", "gmail"] ⟨true, true⟩
      [REffect.driveInitDone "org1", REffect.gmailInitDone "org1"]
      rfl rfl rfl (by decide)⟩

theorem stopEach_mem (l : List ConsumerSpec) (c : ConsumerSpec) (hc : c ∈ l) :
    MEffect.consumerStopCalled c.name ∈ stopEach l := by
  induction l with
  | nil => cases hc
  | cons a rest ih =>
    rcases List.mem_cons.mp hc with rfl | hm
    · simp [stopEach]
    · simp [stopEach, ih hm]

theorem stopEach_no_started (l : List ConsumerSpec) (n : String) :
    MEffect.consumerStarted n ∉ stopEach l := by
  induction l with
  | nil => simp [stopEach]
  | cons a rest ih =>
    cases hs : a.stopFails <;> simp [stopEach, hs, ih]

theorem startConsumersGo_error (rest : List ConsumerSpec) :
    ∀ (started : List ConsumerSpec) (effs : List MEffect),
      startConsumersGo started rest = (.error (), effs) →
      (∀ c ∈ started, MEffect.consumerStopCalled c.name ∈ effs) ∧
        (∀ n, MEffect.consumerStarted n ∈ effs →
          MEffect.consumerStopCalled n ∈ effs) := by
  induction rest with
  | nil =>
    intro started effs h
    simp [startConsumersGo] at h
  | cons c rest ih =>
    intro started effs h
    simp only [startConsumersGo] at h
    by_cases hf : c.startFails
    · rw [if_pos hf] at h
      rw [Prod.mk.injEq] at h
      obtain ⟨-, h2⟩ := h
      subst h2
      exact ⟨fun c2 hc2 => stopEach_mem started c2 hc2,
        fun n hn => absurd hn (stopEach_no_started started n)⟩
    · rw [if_neg hf] at h
      rcases hg : startConsumersGo (started ++ [c]) rest with ⟨r, effs2⟩
      rw [hg] at h
      dsimp only at h
      rw [Prod.mk.injEq] at h
      obtain ⟨h1, h2⟩ := h
      subst h2
      subst h1
      have hih := ih (started ++ [c]) effs2 hg
      constructor
      · intro c2 hc2
        exact List.mem_cons_of_mem _
          (hih.1 c2 (List.mem_append.mpr (Or.inl hc2)))
      · intro n hn
        rcases List.mem_cons.mp hn with heq | hm
        · obtain rfl : n = c.name := by injection heq
          exact List.mem_cons_of_mem _
            (hih.1 c (List.mem_append.mpr (Or.inr (by simp))))
        · exact List.mem_cons_of_mem _ (hih.2 n hm)

/-- C5: if any consumer fails to start in `start_kafka_consumers`, every
consumer started so far has its `stop()` invoked before the error is
re-raised, so no consumer of the failed startup remains running; in
`lifespan`, the producer is started before any consumer (its start effect
precedes all others) and a producer startup failure aborts startup before
any consumer exists. -/
theorem startup_atomicity (specs : List ConsumerSpec) (effs : List MEffect) :
    (startKafkaConsumers specs = (.error (), effs) →
      (∀ n, MEffect.consumerStarted n ∈ effs →
          MEffect.consumerStopCalled n ∈ effs) ∧
        runningConsumers effs = []) ∧
      lifespanStartup true specs = (.error (), []) ∧
      (lifespanStartup false specs).2.head? = some MEffect.producerStarted := by
  refine ⟨?_, rfl, ?_⟩
  · intro h
    have hg := startConsumersGo_error specs [] effs h
    refine ⟨hg.2, ?_⟩
    rw [runningConsumers, List.filter_eq_nil_iff]
    intro n hn
    have hstarted : MEffect.consumerStarted n ∈ effs := by
      rcases List.mem_filterMap.mp hn with ⟨e, he, hfe⟩
      cases e <;> simp at hfe
      subst hfe
      exact he
    have hstop := hg.2 n hstarted
    simp [List.contains_iff_exists_mem_beq]
    exact hstop
  · rcases hk : startKafkaConsumers specs with ⟨r, e⟩
    cases r <;> simp [lifespanStartup, hk]

/-- Witness for `startup_atomicity` at `specsSecondFails` (three consumers,
the second of which fails to start): the started `entity` consumer has its
stop invoked and no consumer remains running. -/
theorem startup_atomicity_witness :
    startKafkaConsumers specsSecondFails =
      (.error (), [MEffect.consumerStarted "entity",
                   MEffect.consumerStopCalled "entity"]) ∧
      runningConsumers [MEffect.consumerStarted "entity",
                        MEffect.consumerStopCalled "entity"] = [] :=
  ⟨rfl, ((startup_atomicity specsSecondFails
      [MEffect.consumerStarted "entity",
       MEffect.consumerStopCalled "entity"]).1 rfl).2⟩

/-- C8 counterexample: with a producer attached, a second
`shutdown_container_resources` call invokes `producer.cleanup()` again —
`stop_messaging_producer` never clears `container.messaging_producer`, so
the producer is released twice across the two calls. -/
theorem double_stop_releases_producer_twice_cx :
    MEffect.producerCleanupCalled ∈
        (shutdownContainerResources
          (shutdownContainerResources containerWithProducer).1).2 ∧
      ((shutdownContainerResources containerWithProducer).2 ++
          (shutdownContainerResources
            (shutdownContainerResources containerWithProducer).1).2).count
        MEffect.producerCleanupCalled = 2 := by
  decide

/-- C8 (amended): a second `stop()` call in a row produces no error (both
stop functions catch every collaborator failure) and does not stop any
consumer again — the consumer list is cleared by the first call — but the
producer's `cleanup()` IS invoked again whenever a producer is attached,
because `container.messaging_producer` is never cleared; with no consumers
and no producer, `stop()` is a no-op. -/
theorem stop_second_call_behavior (st : MContainer) :
    ((shutdownContainerResources st).1).kafkaConsumers = [] ∧
      (∀ n, MEffect.consumerStopCalled n ∉
        (shutdownContainerResources (shutdownContainerResources st).1).2) ∧
      ((shutdownContainerResources (shutdownContainerResources st).1).2.count
          MEffect.producerCleanupCalled =
        if st.messagingProducer.isSome then 1 else 0) ∧
      (st.kafkaConsumers = [] ∧ st.messagingProducer = none →
        shutdownContainerResources st = (st, [])) := by
  rcases st with ⟨ks, mp⟩
  cases mp with
  | none =>
    refine ⟨rfl, ?_, rfl, ?_⟩
    · intro n
      simp [shutdownContainerResources, stopKafkaConsumers,
        stopMessagingProducer, stopEach]
    · rintro ⟨rfl, -⟩
      rfl
  | some b =>
    refine ⟨rfl, ?_, ?_, ?_⟩
    · intro n
      cases b <;>
        simp [shutdownContainerResources, stopKafkaConsumers,
          stopMessagingProducer, stopEach]
    · cases b <;>
        simp [shutdownContainerResources, stopKafkaConsumers,
          stopMessagingProducer, stopEach]
    · rintro ⟨-, h⟩
      cases h

/-- Witness for `stop_second_call_behavior` at the empty container: with no
consumer handles and no producer, `stop()` is a no-op. -/
theorem stop_second_call_behavior_witness :
    ((⟨[], none⟩ : MContainer).kafkaConsumers = [] ∧
        (⟨[], none⟩ : MContainer).messagingProducer = none) ∧
      shutdownContainerResources ⟨[], none⟩ = (⟨[], none⟩, []) :=
  ⟨⟨rfl, rfl⟩, (stop_second_call_behavior ⟨[], none⟩).2.2.2 ⟨rfl, rfl⟩⟩

/-- C2 counterexample (spec P2: `build("org1","onedrive")` with
`(tenantId: "t", clientId: "", clientSecret: "s")`): the build fails on
incomplete credentials and leaves the ConnectorSlot untouched, but
processor initialization HAS been reached and performed — refuting
"build never reaches processor initialization". -/
theorem build_processor_init_before_creds_cx :
    REffect.processorInitDone "org1" ∈
        (processApp envOneDriveEmptyClientId "org1" "onedrive"
          ⟨false, false⟩).2.2 ∧
      (processApp envOneDriveEmptyClientId "org1" "onedrive"
          ⟨false, false⟩).1 = StepOutcome.earlyFalse ∧
      slotOverrides (processApp envOneDriveEmptyClientId "org1" "onedrive"
          ⟨false, false⟩).2.2 = [] := by
  decide

/-- C2 (amended): when any mandatory credential field is absent or the
empty string, `build` returns an incomplete-credentials failure and the
ConnectorSlot entry for the key is unchanged — but processor initialization
has already been reached: both the SharePoint `_handle_sharepoint_init`
handler and the OneDrive branch of `resume_sync_services` construct and
initialize the data-entities processor before fetching and validating the
credentials. -/
theorem build_incomplete_creds_after_processor_init :
    (∀ (env : SPEnv) (p : Payload) (st : SPState) (orgId : String)
        (cfg : CredConfig),
      p.orgId = some orgId → (orgId == "") = false →
      env.processorInit = .ok () →
      env.getConfig (configPathSharepoint orgId) = .ok (some cfg) →
      spCredsComplete cfg = false →
      handleSharepointInit env p st =
        (false,
          { st with
              procInits := st.procInits ++ [orgId]
              logs := ("Incomplete SharePoint Online credentials for org_id: "
                  ++ orgId) :: st.logs })) ∧
      (∀ (env : ResumeEnv) (orgId : String) (fl : LoopFlags)
          (cfg : CredConfig),
        env.processorInit orgId = .ok () →
        env.getConfig (configPathOneDrive orgId) = .ok (some cfg) →
        odCredsComplete cfg = false →
        processApp env orgId "onedrive" fl =
          (.earlyFalse, fl,
            [REffect.processorInitDone orgId,
             REffect.errorLog ("Incomplete OneDrive credentials for org_id: "
                ++ orgId)])) := by
  constructor
  · intro env p st orgId cfg hp hne hproc hcfg hinc
    simp only [handleSharepointInit, hp, pyTruthyStr, hne, Bool.not_false,
      if_false, Option.getD_some, hproc, hcfg, hinc, Bool.false_eq_true,
      Bool.not_true, SPState.log]
  · intro env orgId fl cfg hproc hcfg hinc
    have hlow : strLower "onedrive" = "onedrive" := rfl
    simp only [processApp, hlow, connectorCalendar, connectorDrive,
      connectorGmail, connectorOneDrive, hproc, hcfg, hinc]
    simp

/-- Witness for `build_incomplete_creds_after_processor_init`, applying the
SharePoint part at `spEnvEmptyClientId` and the OneDrive part at
`envOneDriveEmptyClientId`, both with the P2 credentials
`(tenantId: "t", clientId: "", clientSecret: "s")`. -/
theorem build_incomplete_creds_after_processor_init_witness :
    (spCredsComplete ⟨some "t", some "", some "s", some "d", none⟩ = false ∧
      handleSharepointInit spEnvEmptyClientId ⟨some "org1"⟩ spStateOne =
        (false,
          { spStateOne with
              procInits := spStateOne.procInits ++ ["org1"]
              logs := ("Incomplete SharePoint Online credentials for org_id: "
                  ++ "org1") :: spStateOne.logs })) ∧
      (odCredsComplete cfgEmptyClientId = false ∧
        processApp envOneDriveEmptyClientId "org1" "onedrive" ⟨false, false⟩ =
          (.earlyFalse, ⟨false, false⟩,
            [REffect.processorInitDone "org1",
             REffect.errorLog ("Incomplete OneDrive credentials for org_id: "
                ++ "org1")])) :=
  ⟨⟨rfl, build_incomplete_creds_after_processor_init.1 spEnvEmptyClientId
      ⟨some "org1"⟩ spStateOne "org1" ⟨some "t", some "", some "s", some "d", none⟩
      rfl rfl rfl rfl rfl⟩,
    ⟨rfl, build_incomplete_creds_after_processor_init.2 envOneDriveEmptyClientId
      "org1" ⟨false, false⟩ cfgEmptyClientId rfl rfl rfl⟩⟩

/-- C6 counterexample: when the processor initialization raises inside the
`sharepointonline.init` handler, the error is caught and `false` is
returned, but the error log line appended by the handler's own `except`
block names only the org — the event type `sharepointonline.init` does not
occur in it, refuting "logged with the event type" for handler errors; the
only log line carrying the event type is the info entry line written before
dispatch, and the event-type-bearing outer `except` of `process_event` is
never reached. -/
theorem dispatch_handler_error_log_cx :
    processEvent spEnvCollaboratorsRaise "sharepointonline.init"
        ⟨some "org1"⟩ spStateOne =
      (false,
        { spStateOne with
            procInits := ["org1"]
            logs := ["Failed to initialize SharePoint Online connector for org_id org1",
                     "Handling SharePoint Online connector event: sharepointonline.init"] }) ∧
      ¬ ("sharepointonline.init".data <:+:
          "Failed to initialize SharePoint Online connector for org_id org1".data) := by
  constructor
  · decide
  · decide

/-- C6 (amended): dispatch never lets an exception reach its caller (in
this embedding `process_event` is a total function); an unrecognized event
type returns `false` having appended only the entry log line and a log line
naming the unknown event type — the ConnectorSlot override, the
spawned-task count and the processor-initialization record are all
unchanged — and a collaborator raising inside a handler is caught by the
handler's own `except` block and converted into a logged `false` return,
where the error log line carries org/failure context but not the event
type: the event type appears only in the info entry line logged before
dispatch (the outer `except` of `process_event`, which would log the event
type together with the error, is unreachable because the handlers catch
their own errors). -/
theorem dispatch_error_containment :
    (∀ (env : SPEnv) (et : String) (p : Payload) (st : SPState),
      et ≠ "sharepointonline.init" → et ≠ "sharepointonline.start" →
      et ≠ "sharepointonline.resync" →
      processEvent env et p st =
        (false,
          { st with
              logs := ("Unknown sharepoint online connector event type: " ++ et)
                :: ("Handling SharePoint Online connector event: " ++ et)
                :: st.logs })) ∧
      (∀ (env : SPEnv) (p : Payload) (st : SPState),
        env.processorInit = .error () → pyTruthyStr p.orgId = true →
        processEvent env "sharepointonline.init" p st =
          (false,
            { st with
                procInits := st.procInits ++ [p.orgId.getD ""]
                logs := ("Failed to initialize SharePoint Online connector for org_id "
                    ++ p.orgId.getD "")
                  :: "Handling SharePoint Online connector event: sharepointonline.init"
                  :: st.logs })) ∧
      (∀ (env : SPEnv) (p : Payload) (st : SPState),
        env.getConnector = .error () → pyTruthyStr p.orgId = true →
        processEvent env "sharepointonline.start" p st =
          (false,
            { st with
                logs := "Failed to get SharePoint Online connector"
                  :: "Handling SharePoint Online connector event: sharepointonline.start"
                  :: st.logs })) := by
  refine ⟨?_, ?_, ?_⟩
  · intro env et p st h1 h2 h3
    simp only [processEvent]
    rw [if_neg (by simp [h1]), if_neg (by simp [h2]), if_neg (by simp [h3])]
    simp [SPState.log]
  · intro env p st hproc horg
    simp only [processEvent]
    rw [if_pos (by simp)]
    simp only [handleSharepointInit, SPState.log, horg, Bool.not_true,
      Bool.false_eq_true, if_false, hproc]
    rfl
  · intro env p st hconn horg
    simp only [processEvent]
    rw [if_neg (by simp), if_pos (by simp)]
    simp only [handleSharepointStartSync, SPState.log, horg, Bool.not_true,
      Bool.false_eq_true, if_false, hconn]
    rfl

/-- Witness for `dispatch_error_containment`: the unknown event
`onedrive.delete` of spec P3 dispatched against a state holding one
registered connector and one spawned task, and the two handler-error parts
at `spEnvCollaboratorsRaise`, whose processor initialization and
connector-provider read both raise. -/
theorem dispatch_error_containment_witness :
    processEvent spEnvCollaboratorsRaise "onedrive.delete" ⟨some "org1"⟩
        spStateOne =
      (false,
        { spStateOne with
            logs := ("Unknown sharepoint online connector event type: "
                ++ "onedrive.delete")
              :: ("Handling SharePoint Online connector event: "
                ++ "onedrive.delete")
              :: spStateOne.logs }) ∧
      processEvent spEnvCollaboratorsRaise "sharepointonline.init"
          ⟨some "org1"⟩ spStateOne =
        (false,
          { spStateOne with
              procInits := spStateOne.procInits ++ [(some "org1").getD ""]
              logs := ("Failed to initialize SharePoint Online connector for org_id "
                  ++ (some "org1").getD "")
                :: "Handling SharePoint Online connector event: sharepointonline.init"
                :: spStateOne.logs }) ∧
      processEvent spEnvCollaboratorsRaise "sharepointonline.start"
          ⟨some "org1"⟩ spStateOne =
        (false,
          { spStateOne with
              logs := "Failed to get SharePoint Online connector"
                :: "Handling SharePoint Online connector event: sharepointonline.start"
                :: spStateOne.logs }) :=
  ⟨dispatch_error_containment.1 spEnvCollaboratorsRaise "onedrive.delete"
      ⟨some "org1"⟩ spStateOne (by decide) (by decide) (by decide),
    dispatch_error_containment.2.1 spEnvCollaboratorsRaise ⟨some "org1"⟩
      spStateOne rfl rfl,
    dispatch_error_containment.2.2 spEnvCollaboratorsRaise ⟨some "org1"⟩
      spStateOne rfl rfl⟩

end Pipeshub
